import Mathlib

/-!
A shallow embedding of `src/transient/ssh.py` from the `transient`
repository: the SSH argument builder (`SshClient.__init__`,
`__default_ssh_args`, `__prepare_ssh_command`), the probe/upgrade
connection loop (`__timed_connection`, `connect_wait`, `connect_piped`),
and the sshfs mount orchestration (`do_sshfs_mount`), together with
theorems about the behaviour of these functions.

Machine-word subtleties do not arise: all quantities are small
non-negative integers (timeouts, ports) or process return codes (Int).
Process scheduling is modelled by explicit data: each probe attempt is
described by the return code of the spawned process and the time it
took to resolve, and the session driven by `do_sshfs_mount` is
described by whether it exits within the bound, its return code and
the text captured on its streams.
-/

namespace Transient

/-- Constant from ssh.py line 20: `SSH_CONNECTION_WAIT_TIME = 3`. -/
def SSH_CONNECTION_WAIT_TIME : Nat := 3

/-- Constant from ssh.py line 21: `SSH_CONNECTION_TIME_BETWEEN_TRIES = 2`. -/
def SSH_CONNECTION_TIME_BETWEEN_TRIES : Nat := 2

/-- Constant from ssh.py line 22: `SSHFS_MAX_RUN_TIME = 2`. -/
def SSHFS_MAX_RUN_TIME : Nat := 2

/-- Embeds `SshClient.__default_ssh_args` (ssh.py lines 52-54): the fixed
option block, with the `ConnectTimeout` value rendered from
`SSH_CONNECTION_WAIT_TIME - 1`. -/
def defaultSshArgs : List String :=
  ["-o", "StrictHostKeyChecking=no", "-o", "UserKnownHostsFile=/dev/null",
   "-o", "batchMode=yes", "-o", "ConnectTimeout=" ++ toString (SSH_CONNECTION_WAIT_TIME - 1)]

/-- Embeds `SshClient.__find_ssh_bin_name` (ssh.py lines 56-57). -/
def findSshBinName : String := "ssh"

/-- Python truthiness on an optional string: `s or d` falls back to `d`
when `s` is `None` or the empty string (used for `ssh_bin_name or
self.__find_ssh_bin_name()` on ssh.py line 46). -/
def orDefaultStr (s : Option String) (d : String) : String :=
  match s with
  | none => d
  | some v => if v = "" then d else v

/-- The state of an `SshClient` object after `__init__` has run
(ssh.py lines 28-50). -/
structure SshClient where
  host : String
  port : Nat
  ssh_bin_name : String
  args : List String
  user : Option String
  password : Option String
  command : Option String
deriving DecidableEq

/-- Embeds `SshClient.__init__` (ssh.py lines 38-50): `port` defaults to
22, `args` defaults to the empty list (`args or []`), the binary name
falls back to `__find_ssh_bin_name()` under Python truthiness, and the
default option block is appended once to the stored argument list
(`self.args.extend(self.__default_ssh_args())`). -/
def mkSshClient (host : String) (port : Option Nat) (ssh_bin_name : Option String)
    (user : Option String) (password : Option String)
    (args : Option (List String)) (command : Option String) : SshClient :=
  { host := host
    port := port.getD 22
    user := user
    password := password
    args := args.getD [] ++ defaultSshArgs
    ssh_bin_name := orDefaultStr ssh_bin_name findSshBinName
    command := command }

/-- Embeds `SshClient.__prepare_builtin_keys` (ssh.py lines 59-64): the
vagrant private key is written to a fresh temporary file and the
singleton list of that path is returned.  The fresh path produced by
`tempfile.mkstemp` is a parameter of the model. -/
def prepareBuiltinKeys (stagedKeyPath : String) : List String := [stagedKeyPath]

/-- Embeds `SshClient.__prepare_ssh_command` (ssh.py lines 66-82):
target is `user@host` when a user is present, the stored args are
extended with a second copy of the default option block and the port,
`-i key` is appended for each staged key (the `for key in priv_keys`
loop), and the optional user command is appended last. -/
def prepareSshCommand (c : SshClient) (stagedKeyPath : String) (userCmd : Option String) :
    List String :=
  let host := match c.user with
    | some u => u ++ "@" ++ c.host
    | none => c.host
  let args := c.args ++ defaultSshArgs ++ ["-p", toString c.port]
  let args := (prepareBuiltinKeys stagedKeyPath).foldl (fun acc key => acc ++ ["-i", key]) args
  let command := [c.ssh_bin_name] ++ args ++ [host]
  match userCmd with
  | some uc => command ++ [uc]
  | none => command

/-- Stream wiring of a spawned process: Python `None` (inherit),
`subprocess.PIPE`, or some other file object/descriptor. -/
inductive FileArg where
  | inherit
  | pipe
  | handle (n : Nat)
deriving DecidableEq

/-- The `ssh_stdin`/`ssh_stdout`/`ssh_stderr` arguments of
`__timed_connection` (ssh.py lines 84-87). -/
structure Wiring where
  stdin : FileArg
  stdout : FileArg
  stderr : FileArg
deriving DecidableEq

/-- One simulated probe attempt: the return code of the spawned probe
process and the number of seconds until `proc.wait` resolves. -/
structure ProbeAttempt where
  code : Int
  resolveTime : Nat
deriving DecidableEq

/-- Observable process-management events of `__timed_connection`. -/
inductive Ev where
  | spawnProbe (cmd : List String)
  | sleepBackoff (n : Nat)
  | terminateProbe
  | spawnReal (cmd : List String) (w : Wiring)
deriving DecidableEq

/-- Outcome of `__timed_connection`: a connected real process, the
RuntimeError of ssh.py lines 142-143 (fatal return code), the
RuntimeError of ssh.py lines 144-145 (deadline exceeded, carrying the
probe command and the timeout), an uncaught
`subprocess.TimeoutExpired` escaping from `proc.wait` (ssh.py
line 111), or exhaustion of the simulated attempt list. -/
inductive ConnResult where
  | connected
  | fatal (code : Int)
  | deadlineExceeded (probeCmd : List String) (timeout : Nat)
  | waitTimeoutEscape
  | simExhausted
deriving DecidableEq

/-- Embeds the `while time.time() - start < timeout` loop of
`SshClient.__timed_connection` (ssh.py lines 93-145).  `elapsed` is the
time since `start`; each iteration spawns a probe, waits for it
(raising an uncaught `TimeoutExpired` if it resolves later than
`SSH_CONNECTION_WAIT_TIME`), then dispatches on the return code:
255 sleeps the fixed backoff and retries, 0 terminates the probe and
spawns the real command with the caller's wiring, anything else raises
the fatal RuntimeError.  Returns the event trace and the outcome. -/
def timedConnectionLoop (probeCmd realCmd : List String) (w : Wiring) (timeout : Nat) :
    List ProbeAttempt → Nat → List Ev × ConnResult
  | [], elapsed =>
    if elapsed < timeout then ([], ConnResult.simExhausted)
    else ([], ConnResult.deadlineExceeded probeCmd timeout)
  | a :: rest, elapsed =>
    if elapsed < timeout then
      if SSH_CONNECTION_WAIT_TIME < a.resolveTime then
        ([Ev.spawnProbe probeCmd], ConnResult.waitTimeoutEscape)
      else if a.code = 255 then
        let r := timedConnectionLoop probeCmd realCmd w timeout rest
          (elapsed + a.resolveTime + SSH_CONNECTION_TIME_BETWEEN_TRIES)
        (Ev.spawnProbe probeCmd :: Ev.sleepBackoff SSH_CONNECTION_TIME_BETWEEN_TRIES :: r.1, r.2)
      else if a.code = 0 then
        ([Ev.spawnProbe probeCmd, Ev.terminateProbe, Ev.spawnReal realCmd w],
          ConnResult.connected)
      else
        ([Ev.spawnProbe probeCmd], ConnResult.fatal a.code)
    else ([], ConnResult.deadlineExceeded probeCmd timeout)

/-- Embeds `SshClient.__timed_connection` (ssh.py lines 84-145): the
probe command is built with the trailing command `"exit"`, the real
command with `self.command`; each of the two `__prepare_ssh_command`
calls stages its own fresh key file, modelled by the two path
parameters. -/
def timedConnection (c : SshClient) (probeKey realKey : String) (timeout : Nat)
    (w : Wiring) (attempts : List ProbeAttempt) : List Ev × ConnResult :=
  timedConnectionLoop (prepareSshCommand c probeKey (some "exit"))
    (prepareSshCommand c realKey c.command) w timeout attempts 0

/-- Embeds `SshClient.connect_wait` (ssh.py lines 147-150): the
underlying `__timed_connection` call passes no stream arguments
(Python `None`, i.e. inherited streams). -/
def connectWait (c : SshClient) (probeKey realKey : String) (timeout : Nat)
    (attempts : List ProbeAttempt) : List Ev × ConnResult :=
  timedConnection c probeKey realKey timeout
    ⟨FileArg.inherit, FileArg.inherit, FileArg.inherit⟩ attempts

/-- Embeds `SshClient.connect_piped` (ssh.py lines 152-156): all three
streams are `subprocess.PIPE`. -/
def connectPiped (c : SshClient) (probeKey realKey : String) (timeout : Nat)
    (attempts : List ProbeAttempt) : List Ev × ConnResult :=
  timedConnection c probeKey realKey timeout
    ⟨FileArg.pipe, FileArg.pipe, FileArg.pipe⟩ attempts

/-- Total simulated time consumed when every attempt in the list is
processed by the retry branch (wait resolution plus the fixed
backoff sleep of ssh.py line 120). -/
def attemptsTotalTime : List ProbeAttempt → Nat
  | [] => 0
  | a :: rest => a.resolveTime + SSH_CONNECTION_TIME_BETWEEN_TRIES + attemptsTotalTime rest

/-- Number of probe spawns in an event trace. -/
def countSpawnProbe : List Ev → Nat
  | [] => 0
  | Ev.spawnProbe _ :: r => countSpawnProbe r + 1
  | _ :: r => countSpawnProbe r

/-- The payloads of the real-command spawns in an event trace, in order. -/
def realSpawns : List Ev → List (List String × Wiring)
  | [] => []
  | Ev.spawnReal cmd w :: r => (cmd, w) :: realSpawns r
  | _ :: r => realSpawns r

/-- Boolean prefix test on character lists (models the start of a
Python substring match). -/
def isPrefixOfCL : List Char → List Char → Bool
  | [], _ => true
  | _ :: _, [] => false
  | p :: ps, c :: cs => if p = c then isPrefixOfCL ps cs else false

/-- Boolean substring test on character lists: models the Python `in`
operator on strings. -/
def containsSub (pat : List Char) : List Char → Bool
  | [] => pat.isEmpty
  | c :: rest => isPrefixOfCL pat (c :: rest) || containsSub pat rest

/-- Number of positions at which `pat` occurs in the list. -/
def countOcc (pat : List Char) : List Char → Nat
  | [] => 0
  | c :: rest => (if isPrefixOfCL pat (c :: rest) then 1 else 0) + countOcc pat rest

/-- Python `pat in s` on strings. -/
def strContains (s pat : String) : Bool := containsSub pat.data s.data

/-- The sentinel literal tested for by the detection check of ssh.py
line 217 (`"TRANSIENT_SSHFS_DONE" not in stdout`). -/
def sentinelChecked : String := "TRANSIENT_SSHFS_DONE"

/-- Embeds the `sshfs_command` format of ssh.py lines 173-174. -/
def sshfsCommand (localUser localDir remoteDir : String) : String :=
  "sudo -E sshfs -o allow_other " ++ localUser ++ "@10.0.2.2:" ++ localDir ++ " " ++ remoteDir

/-- Embeds the remote script sent by `conn.communicate` on ssh.py
lines 193-198: the triple-quoted format string with the sshfs command
interpolated. -/
def mountScript (localUser localDir remoteDir : String) : String :=
  "\n          set -e\n          " ++ sshfsCommand localUser localDir remoteDir ++
    "\n          echo TRANSIENT_SSHFS_DONE\n          exit\n        "

/-- Behaviour of the piped session driven by `do_sshfs_mount`: whether
the `conn.communicate(..., timeout=SSHFS_MAX_RUN_TIME)` call finishes
before the bound (rather than raising `subprocess.TimeoutExpired`),
the session's return code and captured stderr in that case, and the
stdout/stderr drained by the second `conn.communicate()` after
`conn.terminate()` in the timeout case. -/
structure SessionBehavior where
  exitsWithinBound : Bool
  returncode : Int
  commStderr : String
  drainStdout : String
  drainStderr : String
deriving DecidableEq

/-- Caller-visible outcome of `do_sshfs_mount`: a normal return, or a
raised `RuntimeError` carrying the given message. -/
inductive MountResult where
  | success
  | error (msg : String)
deriving DecidableEq

/-- A run of the mount phase: its outcome, whether `conn.terminate()`
was performed, and the script sent as the session's input. -/
structure MountRun where
  result : MountResult
  terminated : Bool
  scriptSent : String
deriving DecidableEq

/-- Embeds the mount phase of `do_sshfs_mount` (ssh.py lines 172-218),
given an established piped session with the stated behaviour.  If the
bounded `communicate` finishes: a non-zero return code raises
`"SSHFS mount failed with: " ++ stderr`, otherwise the function
returns.  If it raises `TimeoutExpired`: the connection is terminated
from the local side, the remaining output is drained, and the
sentinel check on the drained stdout decides between a normal return
and `"SSHFS mount timed out: " ++ stderr`. -/
def doSshfsMount (localUser localDir remoteDir : String) (beh : SessionBehavior) : MountRun :=
  let script := mountScript localUser localDir remoteDir
  if beh.exitsWithinBound then
    if beh.returncode ≠ 0 then
      { result := MountResult.error ("SSHFS mount failed with: " ++ beh.commStderr)
        terminated := false
        scriptSent := script }
    else
      { result := MountResult.success, terminated := false, scriptSent := script }
  else
    if strContains beh.drainStdout sentinelChecked then
      { result := MountResult.success, terminated := true, scriptSent := script }
    else
      { result := MountResult.error ("SSHFS mount timed out: " ++ beh.drainStderr)
        terminated := true
        scriptSent := script }

/-! ## Helper lemmas about the connection loop -/

theorem loop_all255_deadline (pc rc : List String) (w : Wiring) (timeout : Nat)
    (as : List ProbeAttempt) :
    ∀ elapsed : Nat,
      (∀ a ∈ as, a.code = 255 ∧ a.resolveTime ≤ SSH_CONNECTION_WAIT_TIME) →
      timeout ≤ elapsed + attemptsTotalTime as →
      (timedConnectionLoop pc rc w timeout as elapsed).2 =
        ConnResult.deadlineExceeded pc timeout ∧
      ∀ e ∈ (timedConnectionLoop pc rc w timeout as elapsed).1,
        e = Ev.spawnProbe pc ∨ e = Ev.sleepBackoff SSH_CONNECTION_TIME_BETWEEN_TRIES := by
  induction as with
  | nil =>
    intro elapsed _ hb
    have hnl : ¬ elapsed < timeout := by simp [attemptsTotalTime] at hb; omega
    simp [timedConnectionLoop, hnl]
  | cons a rest ih =>
    intro elapsed hall hb
    have ha := hall a (by simp)
    have hrest : ∀ x ∈ rest, x.code = 255 ∧ x.resolveTime ≤ SSH_CONNECTION_WAIT_TIME :=
      fun x hx => hall x (by simp [hx])
    by_cases hlt : elapsed < timeout
    · have hnw : ¬ SSH_CONNECTION_WAIT_TIME < a.resolveTime := by
        have := ha.2; omega
      have hb' : timeout ≤ elapsed + a.resolveTime + SSH_CONNECTION_TIME_BETWEEN_TRIES
          + attemptsTotalTime rest := by
        simp [attemptsTotalTime] at hb; omega
      have hih := ih (elapsed + a.resolveTime + SSH_CONNECTION_TIME_BETWEEN_TRIES) hrest hb'
      refine ⟨by simp [timedConnectionLoop, hlt, hnw, ha.1, hih.1], ?_⟩
      intro e he
      simp only [timedConnectionLoop, if_pos hlt, if_neg hnw, if_pos ha.1] at he
      simp only [List.mem_cons] at he
      rcases he with he | he | he
      · exact Or.inl he
      · exact Or.inr he
      · exact hih.2 e he
    · simp [timedConnectionLoop, hlt]

theorem loop_fatal (pc rc : List String) (w : Wiring) (timeout : Nat) (a : ProbeAttempt)
    (rest : List ProbeAttempt) (ha0 : a.code ≠ 0) (ha255 : a.code ≠ 255)
    (hares : a.resolveTime ≤ SSH_CONNECTION_WAIT_TIME) (pre : List ProbeAttempt) :
    ∀ elapsed : Nat,
      (∀ x ∈ pre, x.code = 255 ∧ x.resolveTime ≤ SSH_CONNECTION_WAIT_TIME) →
      elapsed + attemptsTotalTime pre < timeout →
      (timedConnectionLoop pc rc w timeout (pre ++ a :: rest) elapsed).2 =
        ConnResult.fatal a.code ∧
      countSpawnProbe (timedConnectionLoop pc rc w timeout (pre ++ a :: rest) elapsed).1 =
        pre.length + 1 := by
  induction pre with
  | nil =>
    intro elapsed _ hb
    have hlt : elapsed < timeout := by simp [attemptsTotalTime] at hb; omega
    have hnw : ¬ SSH_CONNECTION_WAIT_TIME < a.resolveTime := by omega
    simp [timedConnectionLoop, hlt, hnw, ha0, ha255, countSpawnProbe]
  | cons x pre' ih =>
    intro elapsed hall hb
    have hx := hall x (by simp)
    have hpre' : ∀ y ∈ pre', y.code = 255 ∧ y.resolveTime ≤ SSH_CONNECTION_WAIT_TIME :=
      fun y hy => hall y (by simp [hy])
    have hlt : elapsed < timeout := by simp [attemptsTotalTime] at hb; omega
    have hnw : ¬ SSH_CONNECTION_WAIT_TIME < x.resolveTime := by
      have := hx.2; omega
    have hb' : elapsed + x.resolveTime + SSH_CONNECTION_TIME_BETWEEN_TRIES
        + attemptsTotalTime pre' < timeout := by
      simp [attemptsTotalTime] at hb; omega
    have hih := ih (elapsed + x.resolveTime + SSH_CONNECTION_TIME_BETWEEN_TRIES) hpre' hb'
    constructor
    · simp [timedConnectionLoop, hlt, hnw, hx.1, hih.1]
    · simp only [List.cons_append, timedConnectionLoop, if_pos hlt, if_neg hnw, if_pos hx.1]
      simp [countSpawnProbe, hih.2]

theorem loop_realSpawns (pc rc : List String) (w : Wiring) (timeout : Nat)
    (as : List ProbeAttempt) :
    ∀ elapsed : Nat,
      (∀ x ∈ realSpawns (timedConnectionLoop pc rc w timeout as elapsed).1, x = (rc, w)) ∧
      (realSpawns (timedConnectionLoop pc rc w timeout as elapsed).1).length ≤ 1 ∧
      ((timedConnectionLoop pc rc w timeout as elapsed).2 = ConnResult.connected ↔
        (realSpawns (timedConnectionLoop pc rc w timeout as elapsed).1).length = 1) ∧
      ((timedConnectionLoop pc rc w timeout as elapsed).2 = ConnResult.connected →
        ∃ p, (timedConnectionLoop pc rc w timeout as elapsed).1 =
          p ++ [Ev.spawnProbe pc, Ev.terminateProbe, Ev.spawnReal rc w]) := by
  induction as with
  | nil =>
    intro elapsed
    by_cases hlt : elapsed < timeout <;>
      simp [timedConnectionLoop, hlt, realSpawns]
  | cons a rest ih =>
    intro elapsed
    by_cases hlt : elapsed < timeout
    · by_cases hw : SSH_CONNECTION_WAIT_TIME < a.resolveTime
      · simp [timedConnectionLoop, hlt, hw, realSpawns]
      · by_cases h255 : a.code = 255
        · have hih := ih (elapsed + a.resolveTime + SSH_CONNECTION_TIME_BETWEEN_TRIES)
          simp only [timedConnectionLoop, if_pos hlt, if_neg hw, if_pos h255]
          simp only [realSpawns]
          refine ⟨hih.1, hih.2.1, hih.2.2.1, ?_⟩
          intro hc
          obtain ⟨p, hp⟩ := hih.2.2.2 hc
          exact ⟨Ev.spawnProbe pc :: Ev.sleepBackoff SSH_CONNECTION_TIME_BETWEEN_TRIES :: p,
            by simp [hp]⟩
        · by_cases h0 : a.code = 0
          · simp only [timedConnectionLoop, if_pos hlt, if_neg hw, if_neg h255, if_pos h0]
            refine ⟨by simp [realSpawns], by simp [realSpawns], by simp [realSpawns], ?_⟩
            intro _
            exact ⟨[], by simp⟩
          · simp [timedConnectionLoop, hlt, hw, h255, h0, realSpawns]
    · simp [timedConnectionLoop, hlt, realSpawns]

theorem loop_no_escape (pc rc : List String) (w : Wiring) (timeout : Nat)
    (as : List ProbeAttempt) :
    ∀ elapsed : Nat,
      (∀ a ∈ as, a.resolveTime ≤ SSH_CONNECTION_WAIT_TIME - 1) →
      (timedConnectionLoop pc rc w timeout as elapsed).2 ≠ ConnResult.waitTimeoutEscape := by
  induction as with
  | nil =>
    intro elapsed _
    by_cases hlt : elapsed < timeout <;> simp [timedConnectionLoop, hlt]
  | cons a rest ih =>
    intro elapsed hall
    have ha := hall a (by simp)
    have hrest : ∀ x ∈ rest, x.resolveTime ≤ SSH_CONNECTION_WAIT_TIME - 1 :=
      fun x hx => hall x (by simp [hx])
    by_cases hlt : elapsed < timeout
    · have hnw : ¬ SSH_CONNECTION_WAIT_TIME < a.resolveTime := by
        have h3 : SSH_CONNECTION_WAIT_TIME = 3 := rfl
        omega
      by_cases h255 : a.code = 255
      · have hih := ih (elapsed + a.resolveTime + SSH_CONNECTION_TIME_BETWEEN_TRIES) hrest
        simp [timedConnectionLoop, hlt, hnw, h255, hih]
      · by_cases h0 : a.code = 0 <;>
          simp [timedConnectionLoop, hlt, hnw, h255, h0]
    · simp [timedConnectionLoop, hlt]

/-! ## Claim theorems about the connection loop -/

/-- C3: when every probe attempt exits with code 255 (each resolved
within the wait bound) and the scripted attempts cover the whole time
budget, both `connect_wait` and `connect_piped` keep retrying
internally — every event of the run is a probe spawn or the fixed
backoff sleep, so no transient readiness failure is surfaced — and
the outcome is the deadline-exceeded RuntimeError of ssh.py
lines 144-145, carrying the probe command and the timeout. -/
theorem C3_retry_until_deadline (c : SshClient) (pk rk : String) (timeout : Nat)
    (as : List ProbeAttempt)
    (h255 : ∀ a ∈ as, a.code = 255)
    (hres : ∀ a ∈ as, a.resolveTime ≤ SSH_CONNECTION_WAIT_TIME)
    (hbud : timeout ≤ attemptsTotalTime as) :
    (connectWait c pk rk timeout as).2 =
      ConnResult.deadlineExceeded (prepareSshCommand c pk (some "exit")) timeout ∧
    (connectPiped c pk rk timeout as).2 =
      ConnResult.deadlineExceeded (prepareSshCommand c pk (some "exit")) timeout ∧
    (∀ e ∈ (connectWait c pk rk timeout as).1,
      e = Ev.spawnProbe (prepareSshCommand c pk (some "exit")) ∨
        e = Ev.sleepBackoff SSH_CONNECTION_TIME_BETWEEN_TRIES) ∧
    (∀ e ∈ (connectPiped c pk rk timeout as).1,
      e = Ev.spawnProbe (prepareSshCommand c pk (some "exit")) ∨
        e = Ev.sleepBackoff SSH_CONNECTION_TIME_BETWEEN_TRIES) := by
  have hall : ∀ a ∈ as, a.code = 255 ∧ a.resolveTime ≤ SSH_CONNECTION_WAIT_TIME :=
    fun a ha => ⟨h255 a ha, hres a ha⟩
  have hb0 : timeout ≤ 0 + attemptsTotalTime as := by omega
  have h1 := loop_all255_deadline (prepareSshCommand c pk (some "exit"))
    (prepareSshCommand c rk c.command) ⟨FileArg.inherit, FileArg.inherit, FileArg.inherit⟩
    timeout as 0 hall hb0
  have h2 := loop_all255_deadline (prepareSshCommand c pk (some "exit"))
    (prepareSshCommand c rk c.command) ⟨FileArg.pipe, FileArg.pipe, FileArg.pipe⟩
    timeout as 0 hall hb0
  exact ⟨h1.1, h2.1, h1.2, h2.2⟩

/-- Witness for C3 at a concrete run: two 255 probes exhaust a
4-second budget and the deadline-exceeded outcome is produced. -/
theorem C3_witness :
    (connectWait (mkSshClient "vmhost" none none none none none none) "/tmp/key1" "/tmp/key2" 4
        [⟨255, 1⟩, ⟨255, 0⟩]).2 =
      ConnResult.deadlineExceeded
        (prepareSshCommand (mkSshClient "vmhost" none none none none none none) "/tmp/key1"
          (some "exit")) 4 :=
  (C3_retry_until_deadline (mkSshClient "vmhost" none none none none none none)
    "/tmp/key1" "/tmp/key2" 4 [⟨255, 1⟩, ⟨255, 0⟩]
    (by decide) (by decide) (by decide)).1

/-- C4: a probe attempt exiting with a code other than 0 and 255,
reached after a prefix of 255-attempts within the budget, makes the
connection raise the fatal RuntimeError of ssh.py lines 142-143
immediately, carrying that code; exactly the prefix probes plus this
one were spawned — zero further attempts — no matter how many
scripted attempts or how much budget remain. -/
theorem C4_fatal_exit_code (c : SshClient) (pk rk : String) (timeout : Nat) (w : Wiring)
    (pre rest : List ProbeAttempt) (a : ProbeAttempt)
    (hpre : ∀ x ∈ pre, x.code = 255 ∧ x.resolveTime ≤ SSH_CONNECTION_WAIT_TIME)
    (ha0 : a.code ≠ 0) (ha255 : a.code ≠ 255)
    (hares : a.resolveTime ≤ SSH_CONNECTION_WAIT_TIME)
    (hreach : attemptsTotalTime pre < timeout) :
    (timedConnection c pk rk timeout w (pre ++ a :: rest)).2 = ConnResult.fatal a.code ∧
    countSpawnProbe (timedConnection c pk rk timeout w (pre ++ a :: rest)).1 =
      pre.length + 1 := by
  have h := loop_fatal (prepareSshCommand c pk (some "exit"))
    (prepareSshCommand c rk c.command) w timeout a rest ha0 ha255 hares pre 0 hpre
    (by omega)
  exact h

/-- Witness for C4 at a concrete run: one 255 probe, then exit code
127 with ample budget (timeout 100) and further scripted attempts:
the outcome is fatal 127 after exactly two probe spawns. -/
theorem C4_witness :
    (timedConnection (mkSshClient "vmhost" none none none none none none) "/tmp/key1"
        "/tmp/key2" 100 ⟨FileArg.inherit, FileArg.inherit, FileArg.inherit⟩
        [⟨255, 1⟩, ⟨127, 0⟩, ⟨0, 0⟩, ⟨0, 0⟩]).2 = ConnResult.fatal 127 ∧
    countSpawnProbe (timedConnection (mkSshClient "vmhost" none none none none none none)
        "/tmp/key1" "/tmp/key2" 100 ⟨FileArg.inherit, FileArg.inherit, FileArg.inherit⟩
        [⟨255, 1⟩, ⟨127, 0⟩, ⟨0, 0⟩, ⟨0, 0⟩]).1 = 2 :=
  C4_fatal_exit_code (mkSshClient "vmhost" none none none none none none) "/tmp/key1"
    "/tmp/key2" 100 ⟨FileArg.inherit, FileArg.inherit, FileArg.inherit⟩
    [⟨255, 1⟩] [⟨0, 0⟩, ⟨0, 0⟩] ⟨127, 0⟩
    (by decide) (by decide) (by decide) (by decide) (by decide)

/-- C6: under the precondition that every probe attempt resolves
within the transport's own `ConnectTimeout`
(`SSH_CONNECTION_WAIT_TIME - 1`, configured strictly below the wait
bound and present in the default option block), the uncaught
timeout-expired branch of `proc.wait(SSH_CONNECTION_WAIT_TIME)`
(ssh.py line 111) is never reached. -/
theorem C6_wait_never_expires (c : SshClient) (pk rk : String) (timeout : Nat) (w : Wiring)
    (as : List ProbeAttempt)
    (h : ∀ a ∈ as, a.resolveTime ≤ SSH_CONNECTION_WAIT_TIME - 1) :
    (timedConnection c pk rk timeout w as).2 ≠ ConnResult.waitTimeoutEscape ∧
    SSH_CONNECTION_WAIT_TIME - 1 < SSH_CONNECTION_WAIT_TIME ∧
    ("ConnectTimeout=" ++ toString (SSH_CONNECTION_WAIT_TIME - 1)) ∈ defaultSshArgs := by
  refine ⟨?_, by decide, by decide⟩
  exact loop_no_escape (prepareSshCommand c pk (some "exit"))
    (prepareSshCommand c rk c.command) w timeout as 0 h

/-- Witness for C6 at a concrete run: probes resolving within the
ConnectTimeout never make the wait expire. -/
theorem C6_witness :
    (timedConnection (mkSshClient "vmhost" none none none none none none) "/tmp/key1"
        "/tmp/key2" 10 ⟨FileArg.pipe, FileArg.pipe, FileArg.pipe⟩
        [⟨255, 2⟩, ⟨0, 1⟩]).2 ≠ ConnResult.waitTimeoutEscape :=
  (C6_wait_never_expires (mkSshClient "vmhost" none none none none none none) "/tmp/key1"
    "/tmp/key2" 10 ⟨FileArg.pipe, FileArg.pipe, FileArg.pipe⟩
    [⟨255, 2⟩, ⟨0, 1⟩] (by decide)).1

/-! ## The shape of built argument vectors -/

theorem prepareSshCommand_eq (c : SshClient) (k : String) (u : Option String) :
    prepareSshCommand c k u =
      [c.ssh_bin_name] ++ c.args ++ defaultSshArgs ++ ["-p", toString c.port] ++ ["-i", k]
        ++ [match c.user with | some usr => usr ++ "@" ++ c.host | none => c.host]
        ++ (match u with | some uc => [uc] | none => []) := by
  unfold prepareSshCommand prepareBuiltinKeys
  cases u <;> simp

/-- C5 as stated is false on the code: each of the two
`__prepare_ssh_command` calls of ssh.py lines 88-89 stages its own
fresh key file, so the real command spawned on upgrade differs from
the probe command not only in the trailing command but also in the
`-i` argument.  Concretely, with distinct staged key paths, the
spawned real command and the probe command already differ with their
trailing commands removed. -/
theorem C5_counterexample :
    realSpawns (timedConnection (mkSshClient "vmhost" none none none none none (some "true"))
        "/tmp/key1" "/tmp/key2" 5 ⟨FileArg.pipe, FileArg.pipe, FileArg.pipe⟩ [⟨0, 1⟩]).1 =
      [(prepareSshCommand (mkSshClient "vmhost" none none none none none (some "true"))
          "/tmp/key2" (some "true"),
        ⟨FileArg.pipe, FileArg.pipe, FileArg.pipe⟩)] ∧
    (prepareSshCommand (mkSshClient "vmhost" none none none none none (some "true"))
        "/tmp/key1" (some "exit")).dropLast ≠
      (prepareSshCommand (mkSshClient "vmhost" none none none none none (some "true"))
        "/tmp/key2" (some "true")).dropLast := by
  constructor
  · decide
  · decide

/-- C5 (amended): whenever the loop upgrades (outcome `connected`),
the trace contains exactly one real-command spawn — and never more
than one in any run — it carries the caller's wiring, it is
immediately preceded by the probe termination, and the real command's
argument vector is identical to the probe's except for the staged
identity file path and the trailing command (the caller's command in
place of the no-op "exit"). -/
theorem C5_upgrade_spawn (c : SshClient) (pk rk : String) (timeout : Nat) (w : Wiring)
    (as : List ProbeAttempt) :
    (∀ x ∈ realSpawns (timedConnection c pk rk timeout w as).1,
      x = (prepareSshCommand c rk c.command, w)) ∧
    (realSpawns (timedConnection c pk rk timeout w as).1).length ≤ 1 ∧
    ((timedConnection c pk rk timeout w as).2 = ConnResult.connected ↔
      (realSpawns (timedConnection c pk rk timeout w as).1).length = 1) ∧
    ((timedConnection c pk rk timeout w as).2 = ConnResult.connected →
      ∃ p, (timedConnection c pk rk timeout w as).1 =
        p ++ [Ev.spawnProbe (prepareSshCommand c pk (some "exit")), Ev.terminateProbe,
          Ev.spawnReal (prepareSshCommand c rk c.command) w]) ∧
    (∃ pre tgt, prepareSshCommand c pk (some "exit") = pre ++ ["-i", pk] ++ [tgt, "exit"] ∧
      prepareSshCommand c rk c.command = pre ++ ["-i", rk] ++ [tgt]
        ++ (match c.command with | some uc => [uc] | none => [])) := by
  have h := loop_realSpawns (prepareSshCommand c pk (some "exit"))
    (prepareSshCommand c rk c.command) w timeout as 0
  refine ⟨h.1, h.2.1, h.2.2.1, h.2.2.2, ?_⟩
  refine ⟨[c.ssh_bin_name] ++ c.args ++ defaultSshArgs ++ ["-p", toString c.port],
    (match c.user with | some usr => usr ++ "@" ++ c.host | none => c.host), ?_, ?_⟩
  · rw [prepareSshCommand_eq]; simp
  · rw [prepareSshCommand_eq]

/-- Witness for C5 (amended) at a concrete run: a first probe exiting
0 yields the `connected` outcome with exactly one real spawn. -/
theorem C5_witness :
    (timedConnection (mkSshClient "guest" none none none none none (some "ls")) "/tmp/ka"
        "/tmp/kb" 5 ⟨FileArg.pipe, FileArg.pipe, FileArg.inherit⟩ [⟨0, 1⟩]).2 =
      ConnResult.connected ∧
    (realSpawns (timedConnection (mkSshClient "guest" none none none none none (some "ls"))
        "/tmp/ka" "/tmp/kb" 5 ⟨FileArg.pipe, FileArg.pipe, FileArg.inherit⟩ [⟨0, 1⟩]).1).length
      = 1 :=
  ⟨by decide,
    ((C5_upgrade_spawn (mkSshClient "guest" none none none none none (some "ls")) "/tmp/ka"
      "/tmp/kb" 5 ⟨FileArg.pipe, FileArg.pipe, FileArg.inherit⟩ [⟨0, 1⟩]).2.2.1).mp
      (by decide)⟩

/-- C7: the built invocation is the transport binary followed by the
stored args (caller extras plus one default block), a second default
block, `-p` with the port (defaulting to 22 when none was given), one
`-i` flag per staged identity file, the `user@host` target exactly
when a user is present, and the trailing command exactly when one is
given; the default block disables strict host-key checking and the
known-hosts file, enables batch mode, and sets a ConnectTimeout
strictly less than the connection wait time. -/
theorem C7_command_shape (host : String) (port : Option Nat) (bin user pw : Option String)
    (extraArgs : Option (List String)) (command : Option String) (k : String)
    (ucmd : Option String) :
    prepareSshCommand (mkSshClient host port bin user pw extraArgs command) k ucmd =
      [orDefaultStr bin findSshBinName] ++ (extraArgs.getD [] ++ defaultSshArgs)
        ++ defaultSshArgs ++ ["-p", toString (port.getD 22)] ++ ["-i", k]
        ++ [match user with | some u => u ++ "@" ++ host | none => host]
        ++ (match ucmd with | some uc => [uc] | none => []) ∧
    defaultSshArgs =
      ["-o", "StrictHostKeyChecking=no", "-o", "UserKnownHostsFile=/dev/null",
       "-o", "batchMode=yes", "-o", "ConnectTimeout=" ++ toString (SSH_CONNECTION_WAIT_TIME - 1)]
      ∧
    SSH_CONNECTION_WAIT_TIME - 1 < SSH_CONNECTION_WAIT_TIME := by
  refine ⟨?_, rfl, by decide⟩
  rw [prepareSshCommand_eq]
  rfl

/-- C8: for a fixed client state and optional command, the built
argument vector depends on the staged identity file path only through
the argument of the single `-i` flag: there are a fixed head and tail
such that every build is head ++ ["-i", staged path] ++ tail.  Two
builds from the same specification are therefore byte-identical
except for the staged key paths (which `tempfile.mkstemp` makes fresh
on each build). -/
theorem C8_rebuild_identical_except_keys (c : SshClient) (ucmd : Option String) :
    ∃ head tail, ∀ k : String,
      prepareSshCommand c k ucmd = head ++ ["-i", k] ++ tail := by
  refine ⟨[c.ssh_bin_name] ++ c.args ++ defaultSshArgs ++ ["-p", toString c.port],
    [match c.user with | some usr => usr ++ "@" ++ c.host | none => c.host]
      ++ (match ucmd with | some uc => [uc] | none => []), ?_⟩
  intro k
  rw [prepareSshCommand_eq]
  simp

/-- C10: every vector built by a client constructed through
`__init__` contains the default option block twice — the constructor
appends one copy to the stored args (ssh.py line 50) and each
`__prepare_ssh_command` call appends a second copy right after it
(ssh.py line 72) — with the same duplication for every trailing
command the same client builds. -/
theorem C10_default_args_duplicated (host : String) (port : Option Nat)
    (bin user pw : Option String) (extraArgs : Option (List String))
    (command : Option String) (k : String) (ucmd : Option String) :
    ∃ tail, prepareSshCommand (mkSshClient host port bin user pw extraArgs command) k ucmd =
      [orDefaultStr bin findSshBinName] ++ extraArgs.getD []
        ++ defaultSshArgs ++ defaultSshArgs ++ tail := by
  refine ⟨["-p", toString (port.getD 22)] ++ ["-i", k]
    ++ [match user with | some u => u ++ "@" ++ host | none => host]
    ++ (match ucmd with | some uc => [uc] | none => []), ?_⟩
  rw [prepareSshCommand_eq]
  simp [mkSshClient]

/-! ## Mount-phase claims -/

/-- C1: when the session does not exit within `SSHFS_MAX_RUN_TIME`,
the mount phase terminates the transport process from the local side,
drains the remaining output, returns success exactly when the drained
stdout contains the sentinel, and otherwise raises the mount-timed-out
RuntimeError carrying the drained stderr text. -/
theorem C1_mount_timeout_sentinel (lu ld rd : String) (beh : SessionBehavior)
    (h : beh.exitsWithinBound = false) :
    (doSshfsMount lu ld rd beh).terminated = true ∧
    ((doSshfsMount lu ld rd beh).result = MountResult.success ↔
      strContains beh.drainStdout sentinelChecked = true) ∧
    (strContains beh.drainStdout sentinelChecked = false →
      (doSshfsMount lu ld rd beh).result =
        MountResult.error ("SSHFS mount timed out: " ++ beh.drainStderr)) := by
  by_cases hs : strContains beh.drainStdout sentinelChecked <;>
    simp [doSshfsMount, h, hs]

/-- Witness for C1 at a concrete session that never exits: the drained
stdout contains the sentinel and the mount succeeds after forced
termination. -/
theorem C1_witness :
    (doSshfsMount "user" "/ldir" "/rdir"
        ⟨false, 0, "", "mounting\nTRANSIENT_SSHFS_DONE\n", "werror"⟩).terminated = true ∧
    ((doSshfsMount "user" "/ldir" "/rdir"
        ⟨false, 0, "", "mounting\nTRANSIENT_SSHFS_DONE\n", "werror"⟩).result =
      MountResult.success ↔
      strContains "mounting\nTRANSIENT_SSHFS_DONE\n" sentinelChecked = true) ∧
    (strContains "mounting\nTRANSIENT_SSHFS_DONE\n" sentinelChecked = false →
      (doSshfsMount "user" "/ldir" "/rdir"
          ⟨false, 0, "", "mounting\nTRANSIENT_SSHFS_DONE\n", "werror"⟩).result =
        MountResult.error ("SSHFS mount timed out: " ++ "werror")) :=
  C1_mount_timeout_sentinel "user" "/ldir" "/rdir"
    ⟨false, 0, "", "mounting\nTRANSIENT_SSHFS_DONE\n", "werror"⟩ rfl

/-- C2: when the session exits within `SSHFS_MAX_RUN_TIME`, exit code
0 yields success with no forced termination, and a non-zero exit code
raises the mount-failed RuntimeError carrying the captured stderr
verbatim, likewise with no forced termination. -/
theorem C2_mount_clean_exit (lu ld rd : String) (beh : SessionBehavior)
    (h : beh.exitsWithinBound = true) :
    (beh.returncode = 0 →
      (doSshfsMount lu ld rd beh).result = MountResult.success ∧
      (doSshfsMount lu ld rd beh).terminated = false) ∧
    (beh.returncode ≠ 0 →
      (doSshfsMount lu ld rd beh).result =
        MountResult.error ("SSHFS mount failed with: " ++ beh.commStderr) ∧
      (doSshfsMount lu ld rd beh).terminated = false) := by
  by_cases hr : beh.returncode = 0 <;>
    simp [doSshfsMount, h, hr]

/-- Witness for C2 at two concrete sessions exiting within the bound:
exit code 0 succeeds without termination, exit code 1 fails with the
captured stderr text. -/
theorem C2_witness :
    ((doSshfsMount "user" "/ldir" "/rdir" ⟨true, 0, "no error", "", ""⟩).result =
        MountResult.success ∧
      (doSshfsMount "user" "/ldir" "/rdir" ⟨true, 0, "no error", "", ""⟩).terminated = false) ∧
    ((doSshfsMount "user" "/ldir" "/rdir" ⟨true, 1, "boom", "", ""⟩).result =
        MountResult.error ("SSHFS mount failed with: " ++ "boom") ∧
      (doSshfsMount "user" "/ldir" "/rdir" ⟨true, 1, "boom", "", ""⟩).terminated = false) :=
  ⟨(C2_mount_clean_exit "user" "/ldir" "/rdir" ⟨true, 0, "no error", "", ""⟩ rfl).1 rfl,
    (C2_mount_clean_exit "user" "/ldir" "/rdir" ⟨true, 1, "boom", "", ""⟩ rfl).2
      (by decide)⟩

/-! ## Counting sentinel occurrences in the mount script -/

theorem isPrefixOfCL_append_cons (pat : List Char) (c : Char) (hc : c ∉ pat) :
    ∀ w v : List Char, isPrefixOfCL pat (w ++ c :: v) = isPrefixOfCL pat w := by
  induction pat with
  | nil => intro w v; simp [isPrefixOfCL]
  | cons p ps ih =>
    intro w v
    have hpc : p ≠ c := fun h => hc (by simp [h])
    have hcps : c ∉ ps := fun h => hc (by simp [h])
    cases w with
    | nil =>
      simp [isPrefixOfCL, if_neg hpc]
    | cons a ws =>
      by_cases hpa : p = a <;> simp [isPrefixOfCL, hpa, ih hcps ws v]

theorem countOcc_append_cons (pat : List Char) (hne : pat ≠ []) (c : Char) (hc : c ∉ pat)
    (v : List Char) :
    ∀ u : List Char, countOcc pat (u ++ c :: v) = countOcc pat u + countOcc pat v := by
  intro u
  induction u with
  | nil =>
    have hp : isPrefixOfCL pat (c :: v) = false := by
      cases pat with
      | nil => exact absurd rfl hne
      | cons p ps =>
        have hpc : p ≠ c := fun h => hc (by simp [h])
        simp [isPrefixOfCL, if_neg hpc]
    simp [countOcc, hp]
  | cons a us ih =>
    have h1 := isPrefixOfCL_append_cons pat c hc (a :: us) v
    calc countOcc pat ((a :: us) ++ c :: v)
        = (if isPrefixOfCL pat ((a :: us) ++ c :: v) then 1 else 0)
            + countOcc pat (us ++ c :: v) := rfl
      _ = (if isPrefixOfCL pat (a :: us) then 1 else 0)
            + (countOcc pat us + countOcc pat v) := by rw [h1, ih]
      _ = countOcc pat (a :: us) + countOcc pat v := by
            simp only [countOcc]; omega

theorem countOcc_zero_of_not_contains (pat : List Char) :
    ∀ s : List Char, containsSub pat s = false → countOcc pat s = 0 := by
  intro s
  induction s with
  | nil => intro _; rfl
  | cons a rest ih =>
    intro h
    simp only [containsSub, Bool.or_eq_false_iff] at h
    simp [countOcc, h.1, ih h.2]

theorem mountScript_data (lu ld rd : String) :
    (mountScript lu ld rd).data =
      "\n          set -e\n          sudo -E sshfs -o allow_other".data ++
        ' ' :: (lu.data ++ '@' :: ("10.0.2.2".data ++ ':' :: (ld.data ++
          ' ' :: (rd.data ++ '\n' ::
            "          echo TRANSIENT_SSHFS_DONE\n          exit\n        ".data)))) := by
  simp [mountScript, sshfsCommand, String.data_append, List.append_assoc]

set_option maxRecDepth 4000 in
/-- C9 as stated is false on the code: the sentinel literal is
interpolated together with the caller-supplied directory names, so a
local directory whose name contains the sentinel makes the script
contain it more than once. -/
theorem C9_counterexample :
    countOcc sentinelChecked.data
      (mountScript "user" "TRANSIENT_SSHFS_DONE" "/rdir").data ≠ 1 := by
  decide

/-- C9 (amended): for every local user, local directory and remote
directory that do not themselves contain the sentinel literal, the
remote script contains exactly one occurrence of the sentinel, the
mount command is placed before that occurrence, and the occurrence is
byte-for-byte the string tested by the detection check of ssh.py
line 217. -/
theorem C9_sentinel_script (lu ld rd : String)
    (h1 : strContains lu sentinelChecked = false)
    (h2 : strContains ld sentinelChecked = false)
    (h3 : strContains rd sentinelChecked = false) :
    countOcc sentinelChecked.data (mountScript lu ld rd).data = 1 ∧
    ∃ A B : String, mountScript lu ld rd = A ++ sentinelChecked ++ B ∧
      ∃ A1 A2 : String, A = A1 ++ sshfsCommand lu ld rd ++ A2 := by
  constructor
  · have hne : sentinelChecked.data ≠ [] := by decide
    have hsp : ' ' ∉ sentinelChecked.data := by decide
    have hat : '@' ∉ sentinelChecked.data := by decide
    have hco : ':' ∉ sentinelChecked.data := by decide
    have hnl : '\n' ∉ sentinelChecked.data := by decide
    have c1 : countOcc sentinelChecked.data lu.data = 0 :=
      countOcc_zero_of_not_contains sentinelChecked.data lu.data h1
    have c2 : countOcc sentinelChecked.data ld.data = 0 :=
      countOcc_zero_of_not_contains sentinelChecked.data ld.data h2
    have c3 : countOcc sentinelChecked.data rd.data = 0 :=
      countOcc_zero_of_not_contains sentinelChecked.data rd.data h3
    rw [mountScript_data,
      countOcc_append_cons sentinelChecked.data hne ' ' hsp _ _,
      countOcc_append_cons sentinelChecked.data hne '@' hat _ _,
      countOcc_append_cons sentinelChecked.data hne ':' hco _ _,
      countOcc_append_cons sentinelChecked.data hne ' ' hsp _ _,
      countOcc_append_cons sentinelChecked.data hne '\n' hnl _ _,
      c1, c2, c3]
    decide
  · refine ⟨"\n          set -e\n          " ++ sshfsCommand lu ld rd ++ "\n          echo ",
      "\n          exit\n        ", ?_,
      ⟨"\n          set -e\n          ", "\n          echo ", rfl⟩⟩
    apply String.ext
    simp [mountScript, sshfsCommand, sentinelChecked, String.data_append, List.append_assoc]

/-- Witness for C9 (amended) at concrete benign directory names. -/
theorem C9_witness :
    countOcc sentinelChecked.data (mountScript "user" "/ldir" "/rdir").data = 1 ∧
    ∃ A B : String, mountScript "user" "/ldir" "/rdir" = A ++ sentinelChecked ++ B ∧
      ∃ A1 A2 : String, A = A1 ++ sshfsCommand "user" "/ldir" "/rdir" ++ A2 :=
  C9_sentinel_script "user" "/ldir" "/rdir" (by decide) (by decide) (by decide)

end Transient
